import Mathlib

/-!
Verification of the rmcp-actix-web transport layer.

This development shallowly embeds the two HTTP transport handler modules of
the repository:

* `src/transport/streamable_http_server.rs` — the bidirectional
  ("streamable HTTP") variant: `handle_get`, `handle_post`, `handle_delete`
  of `StreamableHttpService`, together with the SSE frame-building loops
  they spawn.
* `src/transport/sse_server.rs` — the legacy unidirectional SSE variant:
  `post_event_handler` and `sse_handler`.

Handlers are embedded as pure state-passing functions.  The external
`SessionManager` (from the rmcp crate, an external collaborator specified at
its interface boundary in the design document) is modelled as a list of
session ids threaded through the handlers; its fallible externals
(service factory, `initialize_session`) are passed in as explicit result
parameters.  Streaming response bodies produced by `tokio::select!` loops
are embedded as functions from a finite trace of scheduler events
(next real message / keep-alive timer tick) to the list of emitted chunks.
-/

/-! ### String helpers

The Rust code uses `str::contains` (substring search) and
`str::starts_with`; these are embedded over `List Char` so that proofs can
proceed by list induction. -/

/-- `isPrefixB p l` decides whether `p` is a prefix of `l` (char lists). -/
def isPrefixB : List Char → List Char → Bool
  | [], _ => true
  | _ :: _, [] => false
  | a :: as, b :: bs => a == b && isPrefixB as bs

/-- `containsSub needle haystack` decides whether `needle` occurs
contiguously inside `haystack`; embeds Rust `str::contains`. -/
def containsSub (needle : List Char) : List Char → Bool
  | [] => needle.isEmpty
  | c :: hs => isPrefixB needle (c :: hs) || containsSub needle hs

/-- Embeds Rust `str::contains` at the `String` level. -/
def strContains (haystack needle : String) : Bool :=
  containsSub needle.data haystack.data

/-- Embeds Rust `str::starts_with` at the `String` level. -/
def strStartsWith (s p : String) : Bool :=
  isPrefixB p.data s.data

/-- `isSuffixB n h` decides whether `n` is a suffix of `h`. -/
def isSuffixB (n h : List Char) : Bool :=
  isPrefixB n.reverse h.reverse

/-- Split a character list at newline characters; the result always has one
more entry than the number of `'\n'` occurrences, so a trailing `"\n\n"`
shows up as two final empty lines. -/
def splitLines : List Char → List (List Char)
  | [] => [[]]
  | c :: cs =>
    if c = '\n' then [] :: splitLines cs
    else
      match splitLines cs with
      | [] => [[c]]
      | l :: ls => (c :: l) :: ls

theorem splitLines_ne_nil (cs : List Char) : splitLines cs ≠ [] := by
  induction cs with
  | nil => simp [splitLines]
  | cons c cs ih =>
    by_cases h : c = '\n'
    · simp [splitLines, h]
    · simp only [splitLines, if_neg h]
      cases hsl : splitLines cs with
      | nil => simp
      | cons l ls => simp

theorem splitLines_append_newline (a b : List Char) (h : '\n' ∉ a) :
    splitLines (a ++ '\n' :: b) = a :: splitLines b := by
  induction a with
  | nil => simp [splitLines]
  | cons c cs ih =>
    have hc : c ≠ '\n' := fun hc => h (hc ▸ List.mem_cons_self c cs)
    have hcs : '\n' ∉ cs := fun hm => h (List.mem_cons_of_mem c hm)
    show splitLines (c :: (cs ++ '\n' :: b)) = (c :: cs) :: splitLines b
    rw [splitLines, if_neg hc, ih hcs]

theorem isPrefixB_self_append (p r : List Char) : isPrefixB p (p ++ r) = true := by
  induction p with
  | nil => simp [isPrefixB]
  | cons c cs ih => simp [isPrefixB, ih]

theorem isSuffixB_append (h n : List Char) : isSuffixB n (h ++ n) = true := by
  unfold isSuffixB
  rw [List.reverse_append]
  exact isPrefixB_self_append n.reverse h.reverse

theorem string_data_append (a b : String) : (a ++ b).data = a.data ++ b.data := by
  cases a; cases b; rfl

theorem string_append_assoc (a b c : String) : (a ++ b) ++ c = a ++ (b ++ c) := by
  cases a with
  | mk da =>
    cases b with
    | mk db =>
      cases c with
      | mk dc => exact congrArg String.mk (List.append_assoc da db dc)

theorem string_length_append (a b : String) : (a ++ b).length = a.length + b.length := by
  cases a with
  | mk da =>
    cases b with
    | mk db => exact List.length_append da db

/-! ### Data model

`ClientJsonRpcMessage` (from the rmcp model crate) is an opaque tagged
union with four variants; the transport only inspects (a) the variant tag
and (b) for requests, whether the payload is `ClientRequest::InitializeRequest`.
The per-request extension bag is only ever touched to insert an
`AuthorizationHeader`, so it is modelled as `Option String`. -/

/-- Which `ClientRequest` payload a JSON-RPC request carries: the transport
only distinguishes `InitializeRequest` from everything else. -/
inductive ReqKind
  | initializeRequest
  | other
deriving DecidableEq, Repr

/-- A JSON-RPC request message together with its extension bag
(`request.extensions`), of which the transport only reads/writes the
`AuthorizationHeader` entry. -/
structure RequestMsg where
  kind : ReqKind
  authExt : Option String
deriving DecidableEq, Repr

/-- The four variants of `rmcp::model::ClientJsonRpcMessage` as seen by the
transport. -/
inductive ClientJsonRpcMessage
  | request : RequestMsg → ClientJsonRpcMessage
  | notification : ClientJsonRpcMessage
  | response : ClientJsonRpcMessage
  | error : ClientJsonRpcMessage
deriving DecidableEq, Repr

/-- Embeds `matches!(request_msg.request, ClientRequest::InitializeRequest(_))`
lifted to the whole message (non-request variants are not initialize
requests). -/
def isInitializeRequest : ClientJsonRpcMessage → Bool
  | .request r => r.kind == .initializeRequest
  | _ => false

/-- HTTP status outcomes produced by the handlers (each corresponds to an
`HttpResponse::...` constructor or `InternalError::new(_, code)` call in
the source). -/
inductive Status
  | ok
  | accepted
  | noContent
  | badRequest
  | unauthorized
  | notAcceptable
  | unsupportedMediaType
  | unprocessableEntity
  | notFound
  | gone
  | internalServerError
deriving DecidableEq, Repr

/-- The body of a handler response.  Statically-known single-frame streams
(the initialize response) carry their frames; long-lived streams driven by
later scheduler events are represented by which stream the handler
constructed, and their chunk production is modelled separately by the loop
functions below. -/
inductive RespBody
  | empty
  | text : String → RespBody
  | sseFrames : List String → RespBody
  | requestStream : RequestMsg → RespBody
  | standaloneStream : RespBody
  | resumeStream : String → RespBody
  | statelessStream : RequestMsg → RespBody
  | legacyStream : String → String → RespBody
deriving DecidableEq, Repr

/-- An HTTP response as observed by the client: status, the optional
`mcp-session-id` response header, and the body. -/
structure HttpResponseModel where
  status : Status
  sessionIdHeader : Option String
  body : RespBody
deriving DecidableEq, Repr

/-! ### Authorization passthrough

Embeds the `match auth_value.to_str()` blocks of
`streamable_http_server.rs` (the same logic appears verbatim in the
existing-session, new-session and stateless branches): only a value that
starts with `"Bearer "` and is strictly longer than 7 bytes is inserted
into the extension bag, and what is inserted is the whole header value
(`AuthorizationHeader(auth_str.to_string())`); every other case inserts
nothing. -/

/-- Result of the authorization-passthrough block: the
`AuthorizationHeader` extension inserted into the request's extension bag,
if any.  `none` input models an absent `Authorization` header. -/
def forwardAuthorization (authHeader : Option String) : Option String :=
  match authHeader with
  | none => none
  | some s =>
    if strStartsWith s "Bearer " && decide (s.length > 7) then some s else none

/-! ### Streamable HTTP handlers -/

/-- The `Accept` check of `handle_post`: the header must contain both
`application/json` and `text/event-stream` as substrings. -/
def acceptOkPost (accept : Option String) : Bool :=
  match accept with
  | none => false
  | some h => strContains h "application/json" && strContains h "text/event-stream"

/-- The `Accept` check of `handle_get`: the header must contain
`text/event-stream` as a substring. -/
def acceptOkGet (accept : Option String) : Bool :=
  match accept with
  | none => false
  | some h => strContains h "text/event-stream"

/-- The `Content-Type` check of `handle_post`: the header must start with
`application/json`. -/
def contentTypeOk (contentType : Option String) : Bool :=
  match contentType with
  | none => false
  | some h => strStartsWith h "application/json"

/-- An inbound POST request to the streamable HTTP endpoint.  `body` is the
result of `serde_json::from_slice::<ClientJsonRpcMessage>` on the raw
bytes: `none` models a malformed body. -/
structure PostRequest where
  accept : Option String
  contentType : Option String
  sessionId : Option String
  authorization : Option String
  body : Option ClientJsonRpcMessage
deriving Repr

/-- An inbound GET request to the streamable HTTP endpoint. -/
structure GetRequest where
  accept : Option String
  sessionId : Option String
  lastEventId : Option String
deriving Repr

/-- The observable effect of one `handle_post` call: the response, the
session store afterwards, and whether a backend service task was spawned
for this request (`tokio::spawn` of `serve_server` / `serve_directly`). -/
structure PostEffect where
  response : HttpResponseModel
  store : List String
  spawned : Bool
deriving Repr

/-- Embeds `StreamableHttpService::handle_post`
(`src/transport/streamable_http_server.rs`).

The external `SessionManager` is modelled by the id list `store`:
`create_session` mints `freshId` and registers it, `has_session` is list
membership.  `factoryOk` is whether the `service_factory` call succeeds;
`initResult` is the combined outcome of `initialize_session`
(`.error` = manager failure → 500) and of serializing its response
(`.ok none` models `serde_json::to_string` failing, which the source
replaces by `"{}"`). -/
def handle_post (statefulMode : Bool) (store : List String) (freshId : String)
    (factoryOk : Bool) (initResult : Except Unit (Option String))
    (req : PostRequest) : PostEffect :=
  if !acceptOkPost req.accept then
    ⟨⟨.notAcceptable, none,
      .text "Not Acceptable: Client must accept both application/json and text/event-stream"⟩,
      store, false⟩
  else if !contentTypeOk req.contentType then
    ⟨⟨.unsupportedMediaType, none,
      .text "Unsupported Media Type: Content-Type must be application/json"⟩,
      store, false⟩
  else
    match req.body with
    | none => ⟨⟨.badRequest, none, .empty⟩, store, false⟩
    | some message =>
      if statefulMode then
        match req.sessionId with
        | some sid =>
          if sid ∈ store then
            match message with
            | .request r =>
              ⟨⟨.ok, none,
                .requestStream { r with authExt := forwardAuthorization req.authorization }⟩,
                store, false⟩
            | _ => ⟨⟨.accepted, none, .empty⟩, store, false⟩
          else
            ⟨⟨.unauthorized, none, .text "Unauthorized: Session not found"⟩, store, false⟩
        | none =>
          let store' := freshId :: store
          match message with
          | .request r =>
            if r.kind = .initializeRequest then
              if !factoryOk then
                ⟨⟨.internalServerError, none, .empty⟩, store', false⟩
              else
                match initResult with
                | .error _ => ⟨⟨.internalServerError, none, .empty⟩, store', true⟩
                | .ok ser =>
                  ⟨⟨.ok, some freshId,
                    .sseFrames ["data: " ++ ser.getD "\x7b\x7d" ++ "\n\n"]⟩,
                    store', true⟩
            else
              ⟨⟨.unprocessableEntity, none, .text "Expected initialize request"⟩,
                store', false⟩
          | _ =>
            ⟨⟨.unprocessableEntity, none, .text "Expected initialize request"⟩,
              store', false⟩
      else
        match message with
        | .request r =>
          if !factoryOk then
            ⟨⟨.internalServerError, none, .empty⟩, store, false⟩
          else
            ⟨⟨.ok, none,
              .statelessStream { r with authExt := forwardAuthorization req.authorization }⟩,
              store, true⟩
        | _ => ⟨⟨.unprocessableEntity, none, .text "Unexpected message type"⟩, store, false⟩

/-- Embeds `StreamableHttpService::handle_get`
(`src/transport/streamable_http_server.rs`): accept check, session-id
header check, session lookup, then either a resume stream (when a
last-event id header is present) or a standalone stream. -/
def handle_get (store : List String) (req : GetRequest) : HttpResponseModel :=
  if !acceptOkGet req.accept then
    ⟨.notAcceptable, none, .text "Not Acceptable: Client must accept text/event-stream"⟩
  else
    match req.sessionId with
    | none => ⟨.unauthorized, none, .text "Unauthorized: Session ID is required"⟩
    | some sid =>
      if sid ∈ store then
        match req.lastEventId with
        | some lastId => ⟨.ok, none, .resumeStream lastId⟩
        | none => ⟨.ok, none, .standaloneStream⟩
      else
        ⟨.unauthorized, none, .text "Unauthorized: Session not found"⟩

/-- Modelled from the spec: the external `SessionManager`'s `close_session`
(the manager implementation lives in the rmcp crate, outside this
repository).  Closing a registered session removes its store entry and
succeeds (§4.2: "channel closed; store entry removed; 204-equivalent
success"); closing an unknown id reports an error to the caller — the
store contract (§4.1) exempts only `lookup` from erroring on unknown ids,
and the handler's error mapping is the only outlet for this case. -/
def close_session (store : List String) (id : String) : Except Unit (List String) :=
  if id ∈ store then .ok (store.filter (fun s => s ≠ id)) else .error ()

/-- Embeds `StreamableHttpService::handle_delete`
(`src/transport/streamable_http_server.rs`): missing session-id header →
401; otherwise `close_session`, whose error is mapped to a 500 internal
error and whose success yields 204 No Content. -/
def handle_delete (store : List String) (sessionId : Option String) :
    HttpResponseModel × List String :=
  match sessionId with
  | none => (⟨.unauthorized, none, .text "Unauthorized: Session ID is required"⟩, store)
  | some sid =>
    match close_session store sid with
    | .ok store' => (⟨.noContent, none, .empty⟩, store')
    | .error _ => (⟨.internalServerError, none, .empty⟩, store)

/-! ### The SSE emission loops of the streamable HTTP variant

The `async_stream::stream!` loops of `handle_get` and of the
request-scoped branch of `handle_post` are identical `tokio::select!`
loops over "next outbound envelope" versus "keep-alive timer tick".  They
are embedded as a pure function over a finite trace of scheduler events:
each loop iteration consumes one event and emits one chunk. -/

/-- One item of the session's outbound stream
(`rmcp`'s `ServerSseMessage`): the result of
`serde_json::to_string(&msg.message)` (`none` models serialization
failure, which the source replaces by `"{}"` via `unwrap_or_else`) and the
optional event id. -/
structure OutboundEnvelope where
  serialized : Option String
  eventId : Option String
deriving DecidableEq, Repr

/-- One resolution of the `tokio::select!` in the emission loop: either the
stream produced its next envelope, or the keep-alive timer ticked. -/
inductive StreamStep
  | next : OutboundEnvelope → StreamStep
  | tick
deriving DecidableEq, Repr

/-- The frame built for one envelope: an `id:` line when an event id is
present, then one `data:` line, then the blank-line terminator.  Embeds
the `output.push_str` sequence of the loop body. -/
def encodeFrame (dataStr : String) (eventId : Option String) : String :=
  (match eventId with
   | some i => "id: " ++ i ++ "\n"
   | none => "") ++ ("data: " ++ dataStr ++ "\n\n")

/-- The chunk emitted for one scheduler event of the streamable-HTTP
emission loop: a real frame for an envelope (with `"{}"` substituted when
serialization failed), or the `:ping` keep-alive comment frame. -/
def sseChunk : StreamStep → String
  | .next env => encodeFrame (env.serialized.getD "\x7b\x7d") env.eventId
  | .tick => ":ping\n\n"

/-- The full chunk sequence emitted by the loop for a finite event trace. -/
def sseLoopOutput (steps : List StreamStep) : List String :=
  steps.map sseChunk

/-- The envelopes delivered by the outbound channel along a trace, in
delivery order (tokio mpsc channels are FIFO, so with a single producer
this is the enqueue order). -/
def envelopesOf (steps : List StreamStep) : List OutboundEnvelope :=
  steps.filterMap fun s =>
    match s with
    | .next e => some e
    | .tick => none

/-- The real-event frames of a chunk sequence: everything except the
keep-alive comment frames. -/
def realOutput (chunks : List String) : List String :=
  chunks.filter fun c => c ≠ ":ping\n\n"

/-- A chunk is a complete SSE frame when it ends with the blank-line
terminator. -/
def isCompleteFrame (c : String) : Bool :=
  isSuffixB ['\n', '\n'] c.data

/-! ### Legacy (unidirectional SSE) variant -/

/-- One resolution of the `tokio::select!` in `sse_handler`'s stream loop:
either the outbound channel produced a message (represented by its
`serde_json::to_string` result, `none` on failure) or the ping timer
ticked. -/
inductive LegacyEvent
  | msg : Option String → LegacyEvent
  | tick
deriving DecidableEq, Repr

/-- The chunks emitted for one scheduler event of `sse_handler`'s loop:
on successful serialization one `event: message` frame, on serialization
failure nothing (the source only logs), on a timer tick the `: ping`
comment frame. -/
def legacyChunk : LegacyEvent → List String
  | .msg (some json) => ["event: message\ndata: " ++ json ++ "\n\n"]
  | .msg none => []
  | .tick => [": ping\n\n"]

/-- The initial frame of `sse_handler`'s stream, announcing the companion
submission endpoint for the new session. -/
def endpointFrame (postPath session : String) : String :=
  "event: endpoint\ndata: " ++ postPath ++ "?sessionId=" ++ session ++ "\n\n"

/-- The full chunk sequence of `sse_handler`'s response stream for a
finite event trace: the endpoint frame, then the loop's output. -/
def legacyStreamOutput (postPath session : String) (events : List LegacyEvent) :
    List String :=
  endpointFrame postPath session :: events.flatMap legacyChunk

/-- A legacy session entry as stored in the `TxStore`: whether the
client→backend channel's receiver is gone (`closed`) and the queue of
messages enqueued so far. -/
structure LegacySession where
  closed : Bool
  inbox : List ClientJsonRpcMessage
deriving DecidableEq, Repr

/-- Replace the value stored under `sid` (first occurrence) in the
association list. -/
def updateTx (txs : List (String × LegacySession)) (sid : String)
    (s : LegacySession) : List (String × LegacySession) :=
  match txs with
  | [] => []
  | (k, v) :: rest =>
    if k = sid then (k, s) :: rest else (k, v) :: updateTx rest sid s

/-- Embeds `post_event_handler` (`src/transport/sse_server.rs`): look the
session id (query parameter) up in the `TxStore`; missing → 404
`Session not found`; present but the channel's receiver dropped (the
`tx.send` fails) → 410 `Session closed`; otherwise the message is
enqueued on the session's inbound channel and 202 Accepted is returned
immediately. -/
def post_event_handler (txs : List (String × LegacySession)) (sessionId : String)
    (message : ClientJsonRpcMessage) :
    HttpResponseModel × List (String × LegacySession) :=
  match txs.lookup sessionId with
  | none => (⟨.notFound, none, .text "Session not found"⟩, txs)
  | some s =>
    if s.closed then
      (⟨.gone, none, .text "Session closed"⟩, txs)
    else
      (⟨.accepted, none, .empty⟩,
        updateTx txs sessionId { s with inbox := s.inbox ++ [message] })

/-- The observable effect of one `sse_handler` call: the response, the
`TxStore` afterwards, and whether the freshly built transport was handed
to the backend spawner (`transport_tx.send` succeeded). -/
structure SseHandlerEffect where
  response : HttpResponseModel
  txs : List (String × LegacySession)
  handedOff : Bool
deriving Repr

/-- Embeds `sse_handler` (`src/transport/sse_server.rs`): a fresh session
id is minted and its sender inserted into the `TxStore` first; then the
transport is sent to the backend spawner over `transport_tx` — when that
channel is closed (`serverClosed`) the handler returns a 500 and the store
entry it inserted stays registered (the early return precedes the cleanup
task's spawn); otherwise the SSE response stream is returned. -/
def sse_handler (txs : List (String × LegacySession)) (serverClosed : Bool)
    (freshSession postPath : String) : SseHandlerEffect :=
  let txs' := (freshSession, ⟨false, []⟩) :: txs
  if serverClosed then
    ⟨⟨.internalServerError, none, .text "Failed to send transport, server is closed"⟩,
      txs', false⟩
  else
    ⟨⟨.ok, none, .legacyStream postPath freshSession⟩, txs', true⟩

/-! ### Claim theorems -/

/-- C1 counterexample.  In stateful mode, a POST without a session id whose
body is a well-formed non-initialize request is rejected with the
422-equivalent, but the session store is NOT the same afterwards: the
handler calls `create_session` before inspecting the message kind, so a
fresh entry has been registered. -/
theorem handle_post_nonInit_store_changed :
    (handle_post true [] "s1" true (.ok (some "INIT"))
      ⟨some "application/json, text/event-stream", some "application/json", none, none,
        some (.request ⟨.other, none⟩)⟩).response.status = .unprocessableEntity ∧
    (handle_post true [] "s1" true (.ok (some "INIT"))
      ⟨some "application/json, text/event-stream", some "application/json", none, none,
        some (.request ⟨.other, none⟩)⟩).store ≠ [] := by
  decide

/-- C1 (amended).  In stateful mode, for every POST that arrives without a
session id and whose well-formed body is not an initialize request, the
handler returns the 422-equivalent rejection and spawns no backend task for
that request — but only after `create_session` has run, so the session
store afterwards is the old store with one fresh entry prepended, not the
unchanged store. -/
theorem handle_post_nonInit_rejected (store : List String) (freshId : String)
    (factoryOk : Bool) (initResult : Except Unit (Option String))
    (req : PostRequest) (m : ClientJsonRpcMessage)
    (hacc : acceptOkPost req.accept = true)
    (hct : contentTypeOk req.contentType = true)
    (hsid : req.sessionId = none)
    (hbody : req.body = some m)
    (hinit : isInitializeRequest m = false) :
    (handle_post true store freshId factoryOk initResult req).response.status
        = .unprocessableEntity ∧
    (handle_post true store freshId factoryOk initResult req).spawned = false ∧
    (handle_post true store freshId factoryOk initResult req).store = freshId :: store := by
  cases m with
  | request r =>
    have hk : ¬ r.kind = ReqKind.initializeRequest := by
      intro hk
      rw [show (ClientJsonRpcMessage.request r) = .request ⟨.initializeRequest, r.authExt⟩ by
        cases r; simp_all] at hinit
      simp [isInitializeRequest] at hinit
    simp [handle_post, hacc, hct, hsid, hbody, hk]
  | notification => simp [handle_post, hacc, hct, hsid, hbody]
  | response => simp [handle_post, hacc, hct, hsid, hbody]
  | error => simp [handle_post, hacc, hct, hsid, hbody]

/-- C1 witness. -/
theorem handle_post_nonInit_rejected_witness :
    (handle_post true [] "s1" true (.ok (some "INIT"))
      ⟨some "application/json, text/event-stream", some "application/json", none, none,
        some ClientJsonRpcMessage.notification⟩).response.status = .unprocessableEntity ∧
    (handle_post true [] "s1" true (.ok (some "INIT"))
      ⟨some "application/json, text/event-stream", some "application/json", none, none,
        some ClientJsonRpcMessage.notification⟩).spawned = false ∧
    (handle_post true [] "s1" true (.ok (some "INIT"))
      ⟨some "application/json, text/event-stream", some "application/json", none, none,
        some ClientJsonRpcMessage.notification⟩).store = "s1" :: [] :=
  handle_post_nonInit_rejected [] "s1" true (.ok (some "INIT")) _ _
    (by decide) (by decide) rfl rfl rfl

/-- C2.  In stateful mode, a valid initialize request POSTed without a
session id (with the external factory and `initialize_session` succeeding)
returns exactly one new session id: the store afterwards is the old store
plus the single fresh id, the fresh id is carried in the session-id
response header, the body is a single-event stream holding only the
initialize response, a lookup of the id succeeds immediately afterwards,
and the backend task for that session has been spawned. -/
theorem handle_post_initialize_creates_session (store : List String) (freshId : String)
    (initSer : Option String) (req : PostRequest) (r : RequestMsg)
    (hacc : acceptOkPost req.accept = true)
    (hct : contentTypeOk req.contentType = true)
    (hsid : req.sessionId = none)
    (hbody : req.body = some (.request r))
    (hkind : r.kind = .initializeRequest)
    (hfresh : freshId ∉ store) :
    (handle_post true store freshId true (.ok initSer) req).response.status = .ok ∧
    (handle_post true store freshId true (.ok initSer) req).response.sessionIdHeader
        = some freshId ∧
    (handle_post true store freshId true (.ok initSer) req).response.body
        = .sseFrames ["data: " ++ initSer.getD "\x7b\x7d" ++ "\n\n"] ∧
    (handle_post true store freshId true (.ok initSer) req).store = freshId :: store ∧
    freshId ∈ (handle_post true store freshId true (.ok initSer) req).store ∧
    (handle_post true store freshId true (.ok initSer) req).spawned = true := by
  simp [handle_post, hacc, hct, hsid, hbody, hkind]

/-- C2 witness. -/
theorem handle_post_initialize_creates_session_witness :
    (handle_post true [] "sess-1" true (.ok (some "IR"))
      ⟨some "application/json, text/event-stream", some "application/json", none, none,
        some (.request ⟨.initializeRequest, none⟩)⟩).response.status = .ok ∧
    (handle_post true [] "sess-1" true (.ok (some "IR"))
      ⟨some "application/json, text/event-stream", some "application/json", none, none,
        some (.request ⟨.initializeRequest, none⟩)⟩).response.sessionIdHeader = some "sess-1" ∧
    (handle_post true [] "sess-1" true (.ok (some "IR"))
      ⟨some "application/json, text/event-stream", some "application/json", none, none,
        some (.request ⟨.initializeRequest, none⟩)⟩).response.body
        = .sseFrames ["data: " ++ (some "IR").getD "\x7b\x7d" ++ "\n\n"] ∧
    (handle_post true [] "sess-1" true (.ok (some "IR"))
      ⟨some "application/json, text/event-stream", some "application/json", none, none,
        some (.request ⟨.initializeRequest, none⟩)⟩).store = "sess-1" :: [] ∧
    "sess-1" ∈ (handle_post true [] "sess-1" true (.ok (some "IR"))
      ⟨some "application/json, text/event-stream", some "application/json", none, none,
        some (.request ⟨.initializeRequest, none⟩)⟩).store ∧
    (handle_post true [] "sess-1" true (.ok (some "IR"))
      ⟨some "application/json, text/event-stream", some "application/json", none, none,
        some (.request ⟨.initializeRequest, none⟩)⟩).spawned = true :=
  handle_post_initialize_creates_session [] "sess-1" (some "IR") _ _
    (by decide) (by decide) rfl rfl rfl (by decide)

/-- C3 counterexample.  DELETE on an unknown session id does not return the
"unknown session" outcome: the close failure is mapped to a 500 internal
error, so two DELETEs in a row on the same id yield 204 then 500 — the
second is neither a not-found nor an unauthorized outcome. -/
theorem handle_delete_unknown_counterexample :
    (handle_delete ["s"] (some "s")).1.status = .noContent ∧
    (handle_delete (handle_delete ["s"] (some "s")).2 (some "s")).1.status
        = .internalServerError ∧
    Status.internalServerError ≠ Status.notFound ∧
    Status.internalServerError ≠ Status.unauthorized := by
  decide

/-- C3 (amended).  For every session id not present in the store: GET with
that id (with an acceptable accept header) and POST with that id (with
acceptable headers and a well-formed body) return the 401 "Session not
found" outcome; DELETE with that id returns a 500 internal-error outcome
(the handler maps the close failure to a 500, it has no not-found path) and
leaves the store unchanged; and issuing DELETE twice in a row on a present
id yields 204 No Content first and the 500 internal-error outcome second.
All four handlers are total functions of the request and store, so none of
these cases panics or hangs. -/
theorem unknown_session_outcomes (store : List String) (sid : String)
    (hsid : sid ∉ store) :
    (∀ greq : GetRequest, acceptOkGet greq.accept = true →
        greq.sessionId = some sid → (handle_get store greq).status = .unauthorized) ∧
    (∀ (req : PostRequest) (m : ClientJsonRpcMessage) (freshId : String)
        (factoryOk : Bool) (initResult : Except Unit (Option String)),
        acceptOkPost req.accept = true → contentTypeOk req.contentType = true →
        req.sessionId = some sid → req.body = some m →
        (handle_post true store freshId factoryOk initResult req).response.status
            = .unauthorized) ∧
    ((handle_delete store (some sid)).1.status = .internalServerError ∧
      (handle_delete store (some sid)).2 = store) ∧
    (∀ store2 : List String, sid ∈ store2 →
        (handle_delete store2 (some sid)).1.status = .noContent ∧
        (handle_delete (handle_delete store2 (some sid)).2 (some sid)).1.status
            = .internalServerError) := by
  refine ⟨?_, ?_, ?_, ?_⟩
  · intro greq hacc hs
    simp [handle_get, hacc, hs, hsid]
  · intro req m freshId factoryOk initResult hacc hct hs hbody
    cases m <;> simp [handle_post, hacc, hct, hs, hbody, hsid]
  · simp [handle_delete, close_session, hsid]
  · intro store2 hmem
    have h2 : sid ∉ store2.filter (fun s => s ≠ sid) := by
      intro hin
      have := (List.mem_filter.mp hin).2
      simp at this
    constructor
    · simp [handle_delete, close_session, hmem]
    · simp [handle_delete, close_session, hmem, h2]

/-- C3 witness. -/
theorem unknown_session_outcomes_witness :
    ("x" ∉ ([] : List String)) ∧
    (handle_get [] ⟨some "text/event-stream", some "x", none⟩).status = .unauthorized ∧
    (handle_post true [] "f" true (.ok none)
      ⟨some "application/json, text/event-stream", some "application/json", some "x", none,
        some ClientJsonRpcMessage.notification⟩).response.status = .unauthorized ∧
    (handle_delete [] (some "x")).1.status = .internalServerError ∧
    (handle_delete ["x"] (some "x")).1.status = .noContent ∧
    (handle_delete (handle_delete ["x"] (some "x")).2 (some "x")).1.status
        = .internalServerError := by
  have h := unknown_session_outcomes [] "x" (by decide)
  exact ⟨by decide,
    h.1 ⟨some "text/event-stream", some "x", none⟩ (by decide) rfl,
    h.2.1 _ ClientJsonRpcMessage.notification "f" true (.ok none)
      (by decide) (by decide) rfl rfl,
    h.2.2.1.1,
    (h.2.2.2 ["x"] (by decide)).1,
    (h.2.2.2 ["x"] (by decide)).2⟩

/-- C4.  For every POST to the streamable HTTP endpoint the validations
apply in a fixed order, each failure short-circuiting with its own status:
accept header first (406), content type second (415), body deserialization
third (400), and message-kind validation only after all of these (422 for a
well-formed non-initialize first message in stateful mode, distinct from
the 400). -/
theorem handle_post_validation_order (statefulMode : Bool) (store : List String)
    (freshId : String) (factoryOk : Bool) (initResult : Except Unit (Option String))
    (req : PostRequest) :
    (acceptOkPost req.accept = false →
      (handle_post statefulMode store freshId factoryOk initResult req).response.status
          = .notAcceptable) ∧
    (acceptOkPost req.accept = true → contentTypeOk req.contentType = false →
      (handle_post statefulMode store freshId factoryOk initResult req).response.status
          = .unsupportedMediaType) ∧
    (acceptOkPost req.accept = true → contentTypeOk req.contentType = true →
      req.body = none →
      (handle_post statefulMode store freshId factoryOk initResult req).response.status
          = .badRequest) ∧
    (∀ m : ClientJsonRpcMessage,
      acceptOkPost req.accept = true → contentTypeOk req.contentType = true →
      req.body = some m → isInitializeRequest m = false →
      statefulMode = true → req.sessionId = none →
      (handle_post statefulMode store freshId factoryOk initResult req).response.status
          = .unprocessableEntity) ∧
    Status.unprocessableEntity ≠ Status.badRequest := by
  refine ⟨?_, ?_, ?_, ?_, by decide⟩
  · intro hacc
    simp [handle_post, hacc]
  · intro hacc hct
    simp [handle_post, hacc, hct]
  · intro hacc hct hbody
    simp [handle_post, hacc, hct, hbody]
  · intro m hacc hct hbody hinit hsf hsid
    subst hsf
    cases m with
    | request r =>
      have hk : ¬ r.kind = ReqKind.initializeRequest := by
        intro hk
        cases r with
        | mk kind authExt =>
          subst hk
          simp [isInitializeRequest] at hinit
      simp [handle_post, hacc, hct, hsid, hbody, hk]
    | notification => simp [handle_post, hacc, hct, hsid, hbody]
    | response => simp [handle_post, hacc, hct, hsid, hbody]
    | error => simp [handle_post, hacc, hct, hsid, hbody]

/-- C4 witness. -/
theorem handle_post_validation_order_witness :
    (handle_post true [] "f" true (.ok none)
      ⟨some "text/plain", some "application/json", none, none, none⟩).response.status
        = .notAcceptable ∧
    (handle_post true [] "f" true (.ok none)
      ⟨some "application/json, text/event-stream", some "text/plain", none, none,
        none⟩).response.status = .unsupportedMediaType ∧
    (handle_post true [] "f" true (.ok none)
      ⟨some "application/json, text/event-stream", some "application/json", none, none,
        none⟩).response.status = .badRequest ∧
    (handle_post true [] "f" true (.ok none)
      ⟨some "application/json, text/event-stream", some "application/json", none, none,
        some ClientJsonRpcMessage.response⟩).response.status = .unprocessableEntity := by
  refine ⟨?_, ?_, ?_, ?_⟩
  · exact (handle_post_validation_order true [] "f" true (.ok none)
      ⟨some "text/plain", some "application/json", none, none, none⟩).1 (by decide)
  · exact (handle_post_validation_order true [] "f" true (.ok none)
      ⟨some "application/json, text/event-stream", some "text/plain", none, none,
        none⟩).2.1 (by decide) (by decide)
  · exact (handle_post_validation_order true [] "f" true (.ok none)
      ⟨some "application/json, text/event-stream", some "application/json", none, none,
        none⟩).2.2.1 (by decide) (by decide) rfl
  · exact (handle_post_validation_order true [] "f" true (.ok none)
      ⟨some "application/json, text/event-stream", some "application/json", none, none,
        some ClientJsonRpcMessage.response⟩).2.2.2.1 ClientJsonRpcMessage.response
      (by decide) (by decide) rfl (by decide) rfl rfl

/-- C5 counterexample.  Given `Authorization: Bearer abc`, the value the
passthrough inserts into the extension bag is the whole header value
`"Bearer abc"`, not the bare token `"abc"` claimed. -/
theorem forwardAuthorization_keeps_scheme :
    forwardAuthorization (some "Bearer abc") = some "Bearer abc" ∧
    forwardAuthorization (some "Bearer abc") ≠ some "abc" := by
  decide

/-- C5 (amended).  For every inbound request processed by the authorization
passthrough: given `Authorization: Bearer abc` the per-request extension
bag contains the full header value `"Bearer abc"`; given
`Authorization: Basic xyz`, `Authorization: Bearer` (empty value, with or
without the trailing space), or no Authorization header at all, the
extension bag contains nothing — and none of these cases produces an error
outcome or a fallback credential (the passthrough is a total function into
an optional credential that is `none` in all of those cases).  Shown both
on the passthrough block itself and end-to-end through `handle_post` for an
existing session. -/
theorem forwardAuthorization_cases :
    forwardAuthorization (some "Bearer abc") = some "Bearer abc" ∧
    forwardAuthorization (some "Basic xyz") = none ∧
    forwardAuthorization (some "Bearer") = none ∧
    forwardAuthorization (some "Bearer ") = none ∧
    forwardAuthorization none = none ∧
    (handle_post true ["sess"] "f" true (.ok none)
      ⟨some "application/json, text/event-stream", some "application/json", some "sess",
        some "Bearer abc", some (.request ⟨.other, none⟩)⟩).response.body
        = .requestStream ⟨.other, some "Bearer abc"⟩ ∧
    (handle_post true ["sess"] "f" true (.ok none)
      ⟨some "application/json, text/event-stream", some "application/json", some "sess",
        some "Basic xyz", some (.request ⟨.other, none⟩)⟩).response.body
        = .requestStream ⟨.other, none⟩ ∧
    (handle_post true ["sess"] "f" true (.ok none)
      ⟨some "application/json, text/event-stream", some "application/json", some "sess",
        some "Bearer", some (.request ⟨.other, none⟩)⟩).response.body
        = .requestStream ⟨.other, none⟩ ∧
    (handle_post true ["sess"] "f" true (.ok none)
      ⟨some "application/json, text/event-stream", some "application/json", some "sess",
        none, some (.request ⟨.other, none⟩)⟩).response.body
        = .requestStream ⟨.other, none⟩ := by
  decide

/-- A real-event frame is never the keep-alive comment frame (it is
strictly longer). -/
theorem encodeFrame_ne_ping (dataStr : String) (eventId : Option String) :
    encodeFrame dataStr eventId ≠ ":ping\n\n" := by
  intro h
  have hl := congrArg String.length h
  unfold encodeFrame at hl
  rw [string_length_append, string_length_append, string_length_append] at hl
  have h6 : ("data: " : String).length = 6 := by decide
  have h2 : ("\n\n" : String).length = 2 := by decide
  have h7 : (":ping\n\n" : String).length = 7 := by decide
  rw [h6, h2, h7] at hl
  omega

/-- C6.  If the session's outbound channel delivers the envelopes
`m1..mN` in that order along a scheduler trace (single producer, FIFO
channel), then the consuming GET stream emits exactly the frames of
`m1..mN` in that order once the interleaved keep-alive comment frames are
discarded: no reordering and no duplication. -/
theorem sse_loop_preserves_order (steps : List StreamStep)
    (ms : List OutboundEnvelope) (henq : envelopesOf steps = ms) :
    realOutput (sseLoopOutput steps) = ms.map (fun e => sseChunk (.next e)) := by
  subst henq
  induction steps with
  | nil => rfl
  | cons s rest ih =>
    cases s with
    | next e =>
      have hne : sseChunk (.next e) ≠ ":ping\n\n" := encodeFrame_ne_ping _ _
      simp only [sseLoopOutput, List.map_cons, realOutput, List.filter_cons,
        envelopesOf, List.filterMap_cons]
      rw [if_pos (decide_eq_true hne)]
      exact congrArg _ ih
    | tick =>
      simp only [sseLoopOutput, List.map_cons, realOutput, List.filter_cons,
        envelopesOf, List.filterMap_cons]
      rw [if_neg (by simp [sseChunk])]
      exact ih

/-- C6 witness. -/
theorem sse_loop_preserves_order_witness :
    envelopesOf [.next ⟨some "m1", some "1"⟩, .tick, .next ⟨some "m2", none⟩, .tick]
        = [⟨some "m1", some "1"⟩, ⟨some "m2", none⟩] ∧
    realOutput (sseLoopOutput
        [.next ⟨some "m1", some "1"⟩, .tick, .next ⟨some "m2", none⟩, .tick])
      = List.map (fun e => sseChunk (.next e))
          [⟨some "m1", some "1"⟩, ⟨some "m2", none⟩] :=
  ⟨by decide,
    sse_loop_preserves_order
      [.next ⟨some "m1", some "1"⟩, .tick, .next ⟨some "m2", none⟩, .tick]
      [⟨some "m1", some "1"⟩, ⟨some "m2", none⟩] (by decide)⟩

/-- Splitting a newline-free chunk followed by the blank-line terminator. -/
theorem splitLines_data_frame (r s : List Char) (hr : '\n' ∉ r) (hs : '\n' ∉ s) :
    splitLines (r ++ (s ++ ['\n', '\n'])) = [r ++ s, [], []] := by
  have hrs : '\n' ∉ r ++ s := by
    intro hmem
    rcases List.mem_append.mp hmem with hmem | hmem
    · exact hr hmem
    · exact hs hmem
  rw [← List.append_assoc r s ['\n', '\n']]
  have h1 := splitLines_append_newline (r ++ s) ['\n'] hrs
  rw [h1]
  have h2 : splitLines ['\n'] = [[], []] := by decide
  rw [h2]

/-- Splitting an id line, a data line and the blank-line terminator. -/
theorem splitLines_id_data_frame (p q r s : List Char)
    (hp : '\n' ∉ p) (hq : '\n' ∉ q) (hr : '\n' ∉ r) (hs : '\n' ∉ s) :
    splitLines (p ++ (q ++ ('\n' :: (r ++ (s ++ ['\n', '\n'])))))
      = [p ++ q, r ++ s, [], []] := by
  have hpq : '\n' ∉ p ++ q := by
    intro hmem
    rcases List.mem_append.mp hmem with hmem | hmem
    · exact hp hmem
    · exact hq hmem
  rw [← List.append_assoc p q _]
  rw [splitLines_append_newline (p ++ q) _ hpq]
  rw [splitLines_data_frame r s hr hs]

/-- C7.  Line structure of the wire frames of the bidirectional variant:
for an envelope whose message serializes to `d` (JSON strings contain no
raw newline), the frame splits into an `id:` line exactly when the
envelope carries an event id, followed by exactly one `data:` line holding
the serialization, followed by the blank-line terminator (the two trailing
empty entries of `splitLines`); and the keep-alive frame is a comment-only
chunk produced by the timer arm of the select, distinct from real-event
emission. -/
theorem frame_line_structure (d i : String)
    (hd : '\n' ∉ d.data) (hi : '\n' ∉ i.data) :
    splitLines (sseChunk (.next ⟨some d, some i⟩)).data
        = [("id: " ++ i).data, ("data: " ++ d).data, [], []] ∧
    splitLines (sseChunk (.next ⟨some d, none⟩)).data
        = [("data: " ++ d).data, [], []] ∧
    sseChunk .tick = ":ping\n\n" ∧
    (":ping\n\n" : String).data.head? = some ':' := by
  have hnl : ("\n" : String).data = ['\n'] := by decide
  have hnl2 : ("\n\n" : String).data = ['\n', '\n'] := by decide
  have hempty : ("" : String).data = [] := by decide
  have hsl : splitLines ['\n'] = [[], []] := by decide
  have hA : '\n' ∉ ("id: " ++ i).data := by
    rw [string_data_append]
    intro hmem
    rcases List.mem_append.mp hmem with hmem | hmem
    · exact absurd hmem (by decide)
    · exact hi hmem
  have hB : '\n' ∉ ("data: " ++ d).data := by
    rw [string_data_append]
    intro hmem
    rcases List.mem_append.mp hmem with hmem | hmem
    · exact absurd hmem (by decide)
    · exact hd hmem
  have hrest : splitLines (("data: " ++ d).data ++ ['\n', '\n'])
      = [("data: " ++ d).data, [], []] := by
    have h1 := splitLines_append_newline ("data: " ++ d).data ['\n'] hB
    rw [h1, hsl]
  refine ⟨?_, ?_, rfl, by decide⟩
  · have hchunk : sseChunk (.next ⟨some d, some i⟩)
        = (("id: " ++ i) ++ "\n") ++ (("data: " ++ d) ++ "\n\n") := rfl
    rw [hchunk]
    simp only [string_data_append, hnl, hnl2, List.append_assoc, List.singleton_append,
      List.cons_append, List.nil_append]
    exact splitLines_id_data_frame ("id: " : String).data i.data ("data: " : String).data
      d.data (by decide) hi (by decide) hd
  · have hchunk : sseChunk (.next ⟨some d, none⟩)
        = "" ++ (("data: " ++ d) ++ "\n\n") := rfl
    rw [hchunk]
    simp only [string_data_append, hnl2, hempty, List.append_assoc, List.singleton_append,
      List.cons_append, List.nil_append]
    exact splitLines_data_frame ("data: " : String).data d.data (by decide) hd

/-- C7 witness. -/
theorem frame_line_structure_witness :
    ('\n' ∉ ("mJ" : String).data) ∧ ('\n' ∉ ("7" : String).data) ∧
    splitLines (sseChunk (.next ⟨some "mJ", some "7"⟩)).data
        = [("id: " ++ "7").data, ("data: " ++ "mJ").data, [], []] ∧
    splitLines (sseChunk (.next ⟨some "mJ", none⟩)).data
        = [("data: " ++ "mJ").data, [], []] ∧
    sseChunk .tick = ":ping\n\n" :=
  ⟨by decide, by decide,
    (frame_line_structure "mJ" "7" (by decide) (by decide)).1,
    (frame_line_structure "mJ" "7" (by decide) (by decide)).2.1,
    (frame_line_structure "mJ" "7" (by decide) (by decide)).2.2.1⟩

/-- Looking up the key just updated yields the new value. -/
theorem lookup_updateTx (txs : List (String × LegacySession)) (sid : String)
    (s' : LegacySession) (hsome : (txs.lookup sid).isSome) :
    (updateTx txs sid s').lookup sid = some s' := by
  induction txs with
  | nil => simp [List.lookup] at hsome
  | cons kv rest ih =>
    obtain ⟨k, v⟩ := kv
    by_cases hk : k = sid
    · subst hk
      simp [updateTx, List.lookup]
    · have hk' : (sid == k) = false := by
        simp [beq_eq_false_iff_ne]
        exact fun h => hk h.symm
      simp only [updateTx, if_neg hk, List.lookup, hk']
      simp only [List.lookup, hk'] at hsome
      exact ih hsome

/-- C8.  For every POST to the legacy submission endpoint carrying a
session id query parameter: an unknown id yields the 404-equivalent and an
unchanged store; a live session whose channel is closed yields the
410-equivalent and an unchanged store; a live open session yields the
immediate 202 accepted acknowledgement with the message appended to that
session's inbound queue.  The handler is a total function of the store and
request, so none of the three cases panics. -/
theorem post_event_handler_cases (txs : List (String × LegacySession))
    (sid : String) (msg : ClientJsonRpcMessage) :
    (txs.lookup sid = none →
      post_event_handler txs sid msg
          = (⟨.notFound, none, .text "Session not found"⟩, txs)) ∧
    (∀ s : LegacySession, txs.lookup sid = some s → s.closed = true →
      post_event_handler txs sid msg
          = (⟨.gone, none, .text "Session closed"⟩, txs)) ∧
    (∀ s : LegacySession, txs.lookup sid = some s → s.closed = false →
      (post_event_handler txs sid msg).1.status = .accepted ∧
      (post_event_handler txs sid msg).2
          = updateTx txs sid { s with inbox := s.inbox ++ [msg] } ∧
      ((post_event_handler txs sid msg).2.lookup sid
          = some { s with inbox := s.inbox ++ [msg] })) := by
  refine ⟨?_, ?_, ?_⟩
  · intro hnone
    simp [post_event_handler, hnone]
  · intro s hsome hclosed
    simp [post_event_handler, hsome, hclosed]
  · intro s hsome hopen
    refine ⟨?_, ?_, ?_⟩
    · simp [post_event_handler, hsome, hopen]
    · simp [post_event_handler, hsome, hopen]
    · have h2 : (post_event_handler txs sid msg).2
          = updateTx txs sid { s with inbox := s.inbox ++ [msg] } := by
        simp [post_event_handler, hsome, hopen]
      rw [h2]
      exact lookup_updateTx txs sid _ (by simp [hsome])

/-- C8 witness. -/
theorem post_event_handler_cases_witness :
    (post_event_handler [("a", ⟨false, []⟩)] "b" .notification
        = (⟨.notFound, none, .text "Session not found"⟩, [("a", ⟨false, []⟩)])) ∧
    (post_event_handler [("a", ⟨true, []⟩)] "a" .notification
        = (⟨.gone, none, .text "Session closed"⟩, [("a", ⟨true, []⟩)])) ∧
    (post_event_handler [("a", ⟨false, []⟩)] "a" .notification).1.status = .accepted ∧
    ((post_event_handler [("a", ⟨false, []⟩)] "a" .notification).2.lookup "a"
        = some ⟨false, [ClientJsonRpcMessage.notification]⟩) := by
  refine ⟨?_, ?_, ?_, ?_⟩
  · exact (post_event_handler_cases [("a", ⟨false, []⟩)] "b" .notification).1 (by decide)
  · exact (post_event_handler_cases [("a", ⟨true, []⟩)] "a" .notification).2.1
      ⟨true, []⟩ (by decide) rfl
  · exact ((post_event_handler_cases [("a", ⟨false, []⟩)] "a" .notification).2.2
      ⟨false, []⟩ (by decide) rfl).1
  · exact ((post_event_handler_cases [("a", ⟨false, []⟩)] "a" .notification).2.2
      ⟨false, []⟩ (by decide) rfl).2.2

/-- Any chunk of the shape `a ++ "\n\n"` is a complete frame. -/
theorem isCompleteFrame_append (a : String) : isCompleteFrame (a ++ "\n\n") = true := by
  unfold isCompleteFrame
  rw [string_data_append]
  have h : ("\n\n" : String).data = ['\n', '\n'] := by decide
  rw [h]
  exact isSuffixB_append a.data ['\n', '\n']

/-- C9.  Every chunk either transport variant yields is a complete frame
ending in the blank-line terminator — a real-event frame, a keep-alive
frame, or (legacy) the endpoint frame — and the two serialization-failure
behaviours hold: the bidirectional variant substitutes a complete frame
whose data is the two-character string of an opening and a closing curly
brace, while the legacy variant yields no frame at all for that message. -/
theorem streams_never_truncate (steps : List StreamStep)
    (levents : List LegacyEvent) (postPath session : String) :
    (∀ c ∈ sseLoopOutput steps, isCompleteFrame c = true) ∧
    (∀ eventId : Option String,
      sseChunk (.next ⟨none, eventId⟩) = encodeFrame "\x7b\x7d" eventId) ∧
    (∀ c ∈ legacyStreamOutput postPath session levents, isCompleteFrame c = true) ∧
    legacyChunk (.msg none) = [] := by
  have hframe : ∀ (d : String) (eventId : Option String),
      isCompleteFrame (encodeFrame d eventId) = true := by
    intro d eventId
    have heq : encodeFrame d eventId
        = ((match eventId with
            | some i => "id: " ++ i ++ "\n"
            | none => "") ++ ("data: " ++ d)) ++ "\n\n" := by
      unfold encodeFrame
      exact (string_append_assoc _ _ _).symm
    rw [heq]
    exact isCompleteFrame_append _
  refine ⟨?_, fun _ => rfl, ?_, rfl⟩
  · intro c hc
    rcases List.mem_map.mp hc with ⟨st, _, hst⟩
    cases st with
    | next e => rw [← hst]; exact hframe _ _
    | tick =>
      rw [← hst]
      decide
  · intro c hc
    rcases List.mem_cons.mp hc with hc | hc
    · subst hc
      show isCompleteFrame
        ((("event: endpoint\ndata: " ++ postPath ++ "?sessionId=") ++ session) ++ "\n\n")
          = true
      exact isCompleteFrame_append _
    · rcases List.mem_flatMap.mp hc with ⟨ev, _, hev⟩
      cases ev with
      | msg ser =>
        cases ser with
        | some json =>
          rcases List.mem_singleton.mp hev with rfl
          show isCompleteFrame (("event: message\ndata: " ++ json) ++ "\n\n") = true
          exact isCompleteFrame_append _
        | none => simp [legacyChunk] at hev
      | tick =>
        rcases List.mem_singleton.mp hev with rfl
        decide

/-- C9 witness. -/
theorem streams_never_truncate_witness :
    isCompleteFrame (sseChunk (.next ⟨some "m", some "1"⟩)) = true ∧
    sseChunk (.next ⟨none, some "1"⟩) = encodeFrame "\x7b\x7d" (some "1") ∧
    isCompleteFrame (endpointFrame "/message" "s0") = true ∧
    legacyChunk (.msg none) = [] :=
  ⟨(streams_never_truncate [.next ⟨some "m", some "1"⟩] [] "/message" "s0").1
      (sseChunk (.next ⟨some "m", some "1"⟩)) (by simp [sseLoopOutput]),
    (streams_never_truncate [] [] "/message" "s0").2.1 (some "1"),
    (streams_never_truncate [] [] "/message" "s0").2.2.1
      (endpointFrame "/message" "s0") (by simp [legacyStreamOutput]),
    (streams_never_truncate [] [] "/message" "s0").2.2.2⟩

/-- C10.  When the legacy stream endpoint's handoff of the freshly built
transport fails because the server's transport channel is closed, the
handler returns the internal-error response, no backend task will consume
the session, and the store entry inserted before the handoff attempt
remains registered: a lookup of the fresh session id still succeeds. -/
theorem sse_handler_closed_leaves_entry (txs : List (String × LegacySession))
    (freshSession postPath : String) :
    (sse_handler txs true freshSession postPath).response.status
        = .internalServerError ∧
    (sse_handler txs true freshSession postPath).handedOff = false ∧
    (sse_handler txs true freshSession postPath).txs.lookup freshSession
        = some ⟨false, []⟩ := by
  refine ⟨rfl, rfl, ?_⟩
  simp [sse_handler, List.lookup]
